import Mathlib

/-!
Shallow embedding of the dipplanner Bühlmann ZH-L16 model core
(`src/dipplanner/model/buhlmann/model.py`) together with the parts of its
collaborators (Compartment, OxTox, Gradient, tools, settings) that the model
operations use.  Pressures, times and coefficients are rationals; the
transcendental functions used by the numerics (exp, ln 2, the Hamilton OTU
rate, the NOAA CNS rate, the surface-interval CNS decay and the water-vapour
formula) are abstract parameters bundled in `RealFns`, since none of the
verified properties depend on their values.  Stateful methods become pure
functions `state → state × Option Err`; a raised exception is `some err`
paired with the state as it is when the exception propagates (so partially
applied mutations remain visible, exactly as for a Python object).
-/

set_option maxRecDepth 10000

/-- Error kinds, following the spec's error taxonomy (§7), which is explicitly
a taxonomy and not a set of type names: `modelState` covers
`ModelStateException` as well as the `ZeroDivisionError` raised on a zero
rate, `validation` covers `ModelValidationException`. -/
inductive Err where
  | modelState
  | validation
  deriving DecidableEq, Repr

/-- Modelled from the spec: the transcendental functions used by
`compartment.py`, `oxygen_toxicity.py` and `tools.py`, which are not under
`src/`.  `exp` is the real exponential; `ln2` the natural logarithm of 2 used
to derive time constants (k = ln 2 / (60·τ)); `otuRate pp` (resp. `cnsRate
pp`) is the per-second OTU (resp. CNS) accumulation rate at constant pp_o2
`pp`, so that a segment of duration `t` contributes `t * otuRate pp`
(Hamilton/Repex and the NOAA table are both linear in the duration);
`cnsDecayFactor t` is the CNS multiplier after a surface interval of length
`t` (half-life 90 min); `ppH2OSurf temp` is the water-vapour partial pressure
at surface temperature `temp` (`tools.calculate_pp_h2o_surf`). -/
structure RealFns where
  exp : ℚ → ℚ
  ln2 : ℚ
  otuRate : ℚ → ℚ
  cnsRate : ℚ → ℚ
  cnsDecayFactor : ℚ → ℚ
  ppH2OSurf : ℚ → ℚ

/-- Modelled from the spec: the OxTox state (`oxygen_toxicity.py` is not
under `src/`): cumulative OTU and CNS counters (§3, §4.2). -/
structure OxTox where
  otu : ℚ
  cns : ℚ
  deriving DecidableEq, Repr

/-- Modelled from the spec: `OxTox.add_o2` — both counters accumulate a
contribution linear in the segment duration (§4.2).  The strict-flag
`InvalidO2Exposure` failure is not modelled: the `strict` flag is absent from
the configuration bundle of §6, hence never set. -/
def OxTox.add_o2 (R : RealFns) (seg_time pp_o2 : ℚ) (ox : OxTox) : OxTox :=
  { otu := ox.otu + seg_time * R.otuRate pp_o2
    cns := ox.cns + seg_time * R.cnsRate pp_o2 }

/-- Modelled from the spec: `OxTox.remove_o2` — CNS decays during surface
time with a 90-minute half-life, OTU is unchanged (§4.2). -/
def OxTox.remove_o2 (R : RealFns) (seg_time : ℚ) (ox : OxTox) : OxTox :=
  { otu := ox.otu
    cns := ox.cns * R.cnsDecayFactor seg_time }

/-- Modelled from the spec: Gradient state (`gradient.py` is not under
`src/`): gf_low, gf_high and the current gradient factor (§3, §4.3).  Only
`gf` is read by the model operations under verification. -/
structure Gradient where
  gf_low : ℚ
  gf_high : ℚ
  gf : ℚ
  deriving DecidableEq, Repr

/-- Modelled from the spec: one tissue compartment (`compartment.py` is not
under `src/`): He and N₂ partial pressures, per-second time constants and
M-value coefficients (§3, §4.1). -/
structure Compartment where
  pp_he : ℚ
  pp_n2 : ℚ
  k_he : ℚ
  k_n2 : ℚ
  a_he : ℚ
  b_he : ℚ
  a_n2 : ℚ
  b_n2 : ℚ
  deriving DecidableEq, Repr

/-- A fresh `Compartment()` before any initialisation: all fields zero. -/
def Compartment.init : Compartment :=
  { pp_he := 0, pp_n2 := 0, k_he := 0, k_n2 := 0
    a_he := 0, b_he := 0, a_n2 := 0, b_n2 := 0 }

/-- Modelled from the spec: `Compartment.set_compartment_time_constants` —
stores the M-value coefficients and derives k = ln 2 / (60·τ) from the
half-times in minutes (§4.1); `model.py` passes coefficients already in bar
units. -/
def Compartment.set_compartment_time_constants (R : RealFns)
    (h_he h_n2 a_he b_he a_n2 b_n2 : ℚ) (c : Compartment) : Compartment :=
  { c with
    k_he := R.ln2 / (60 * h_he)
    k_n2 := R.ln2 / (60 * h_n2)
    a_he := a_he, b_he := b_he, a_n2 := a_n2, b_n2 := b_n2 }

/-- Modelled from the spec: `Compartment.const_depth` — Haldane integration
`pp_new = pp_insp + (pp_old − pp_insp)·exp(−k·Δt)` for each inert gas; fails
with a ModelState error on Δt < 0 or any inspired pp < 0 (§4.1). -/
def Compartment.const_depth (R : RealFns)
    (pp_he_inspired pp_n2_inspired seg_time : ℚ) (c : Compartment) :
    Compartment × Option Err :=
  if seg_time < 0 ∨ pp_he_inspired < 0 ∨ pp_n2_inspired < 0 then
    (c, some Err.modelState)
  else
    ({ c with
       pp_he := pp_he_inspired +
         (c.pp_he - pp_he_inspired) * R.exp (-(c.k_he * seg_time))
       pp_n2 := pp_n2_inspired +
         (c.pp_n2 - pp_n2_inspired) * R.exp (-(c.k_n2 * seg_time)) },
     none)

/-- Modelled from the spec: `Compartment.asc_desc` — Schreiner equation
`pp_new = pp_insp + rate·(Δt − 1/k) − (pp_insp − pp_old − rate/k)·exp(−k·Δt)`
for each inert gas; fails with a ModelState error on Δt ≤ 0 (§4.1). -/
def Compartment.asc_desc (R : RealFns)
    (pp_he_inspired pp_n2_inspired rate_he rate_n2 seg_time : ℚ)
    (c : Compartment) : Compartment × Option Err :=
  if seg_time ≤ 0 then
    (c, some Err.modelState)
  else
    ({ c with
       pp_he := pp_he_inspired + rate_he * (seg_time - 1 / c.k_he) -
         (pp_he_inspired - c.pp_he - rate_he / c.k_he) *
           R.exp (-(c.k_he * seg_time))
       pp_n2 := pp_n2_inspired + rate_n2 * (seg_time - 1 / c.k_n2) -
         (pp_n2_inspired - c.pp_n2 - rate_n2 / c.k_n2) *
           R.exp (-(c.k_n2 * seg_time)) },
     none)

/-- Modelled from the spec: `Compartment.get_max_amb` — tolerated ambient
pressure `(pp_he + pp_n2 − a_mix·gf) / (gf/b_mix − gf + 1)` with a_mix and
b_mix the He/N₂-weighted coefficients (§4.1). -/
def Compartment.get_max_amb (gf : ℚ) (c : Compartment) : ℚ :=
  let a_mix := (c.pp_he * c.a_he + c.pp_n2 * c.a_n2) / (c.pp_he + c.pp_n2)
  let b_mix := (c.pp_he * c.b_he + c.pp_n2 * c.b_n2) / (c.pp_he + c.pp_n2)
  ((c.pp_he + c.pp_n2) - a_mix * gf) / (gf / b_mix - gf + 1)

/-- The deco-model selector (`settings.DECO_MODEL`). -/
inductive DecoModel where
  | ZHL16a
  | ZHL16b
  | ZHL16c
  deriving DecidableEq, Repr

/-- The helium fast-compartment sub-variant selector
(`settings.BUHLMANN_VALUES`, "1a" or "1b"). -/
inductive BuhlmannVariant where
  | v1a
  | v1b
  deriving DecidableEq, Repr

/-- Modelled from the spec: the configuration bundle of §6
(the `settings` module is not under `src/`). -/
structure Settings where
  deco_model : DecoModel
  buhlmann_values : BuhlmannVariant
  gf_low : ℚ
  gf_high : ℚ
  surface_temp : ℚ
  ambiant_pressure_surface : ℚ
  default_air_f_innert_gas : ℚ

/-- One row of time constants and M-value coefficients, in the order the
source passes them to `set_compartment_time_constants`:
(h_he, h_n2, a_he, b_he, a_n2, b_n2). -/
structure TimeConstRow where
  h_he : ℚ
  h_n2 : ℚ
  a_he : ℚ
  b_he : ℚ
  a_n2 : ℚ
  b_n2 : ℚ
  deriving DecidableEq, Repr, Inhabited

/-- Compartment-0 row, selected by `settings.BUHLMANN_VALUES`
(identical across the three deco-model branches of
`Model.set_time_constants`). -/
def row0 (bv : BuhlmannVariant) : TimeConstRow :=
  match bv with
  | BuhlmannVariant.v1a => ⟨1.51, 4.0, 1.7424, 0.4245, 1.2599, 0.5050⟩
  | BuhlmannVariant.v1b => ⟨1.88, 5.0, 1.6189, 0.4770, 1.1696, 0.5578⟩

/-- The ZHL16c branch of `Model.set_time_constants`
(model.py lines 162-199). -/
def zhl16cRows (bv : BuhlmannVariant) : List TimeConstRow :=
  [ row0 bv
  , ⟨3.02, 8.0, 1.3830, 0.5747, 1.0000, 0.6514⟩
  , ⟨4.72, 12.5, 1.1919, 0.6527, 0.8618, 0.7222⟩
  , ⟨6.99, 18.5, 1.0458, 0.7223, 0.7562, 0.7825⟩
  , ⟨10.21, 27.0, 0.9220, 0.7582, 0.6200, 0.8126⟩
  , ⟨14.48, 38.3, 0.8205, 0.7957, 0.5043, 0.8434⟩
  , ⟨20.53, 54.3, 0.7305, 0.8279, 0.4410, 0.8693⟩
  , ⟨29.11, 77.0, 0.6502, 0.8553, 0.4000, 0.8910⟩
  , ⟨41.20, 109.0, 0.5950, 0.8757, 0.3750, 0.9092⟩
  , ⟨55.19, 146.0, 0.5545, 0.8903, 0.3500, 0.9222⟩
  , ⟨70.69, 187.0, 0.5333, 0.8997, 0.3295, 0.9319⟩
  , ⟨90.34, 239.0, 0.5189, 0.9073, 0.3065, 0.9403⟩
  , ⟨115.29, 305.0, 0.5181, 0.9122, 0.2835, 0.9477⟩
  , ⟨147.42, 390.0, 0.5176, 0.9171, 0.2610, 0.9544⟩
  , ⟨188.24, 498.0, 0.5172, 0.9217, 0.2480, 0.9602⟩
  , ⟨240.03, 635.0, 0.5119, 0.9267, 0.2327, 0.9653⟩ ]

/-- The ZHL16b branch of `Model.set_time_constants`
(model.py lines 200-237). -/
def zhl16bRows (bv : BuhlmannVariant) : List TimeConstRow :=
  [ row0 bv
  , ⟨3.02, 8.0, 1.3830, 0.5747, 1.0000, 0.6514⟩
  , ⟨4.72, 12.5, 1.1919, 0.6527, 0.8618, 0.7222⟩
  , ⟨6.99, 18.5, 1.0458, 0.7223, 0.7562, 0.7825⟩
  , ⟨10.21, 27.0, 0.9220, 0.7582, 0.6667, 0.8126⟩
  , ⟨14.48, 38.3, 0.8205, 0.7957, 0.5600, 0.8434⟩
  , ⟨20.53, 54.3, 0.7305, 0.8279, 0.4947, 0.8693⟩
  , ⟨29.11, 77.0, 0.6502, 0.8553, 0.4500, 0.8910⟩
  , ⟨41.20, 109.0, 0.5950, 0.8757, 0.4187, 0.9092⟩
  , ⟨55.19, 146.0, 0.5545, 0.8903, 0.3798, 0.9222⟩
  , ⟨70.69, 187.0, 0.5333, 0.8997, 0.3497, 0.9319⟩
  , ⟨90.34, 239.0, 0.5189, 0.9073, 0.3223, 0.9403⟩
  , ⟨115.29, 305.0, 0.5181, 0.9122, 0.2850, 0.9477⟩
  , ⟨147.42, 390.0, 0.5176, 0.9171, 0.2737, 0.9544⟩
  , ⟨188.24, 498.0, 0.5172, 0.9217, 0.2523, 0.9602⟩
  , ⟨240.03, 635.0, 0.5119, 0.9267, 0.2327, 0.9653⟩ ]

/-- The ZHL16a branch of `Model.set_time_constants`
(model.py lines 238-275). -/
def zhl16aRows (bv : BuhlmannVariant) : List TimeConstRow :=
  [ row0 bv
  , ⟨3.02, 8.0, 1.3830, 0.5747, 1.0000, 0.6514⟩
  , ⟨4.72, 12.5, 1.1919, 0.6527, 0.8618, 0.7222⟩
  , ⟨6.99, 18.5, 1.0458, 0.7223, 0.7562, 0.7825⟩
  , ⟨10.21, 27.0, 0.9220, 0.7582, 0.6667, 0.8126⟩
  , ⟨14.48, 38.3, 0.8205, 0.7957, 0.5933, 0.8434⟩
  , ⟨20.53, 54.3, 0.7305, 0.8279, 0.5282, 0.8693⟩
  , ⟨29.11, 77.0, 0.6502, 0.8553, 0.4710, 0.8910⟩
  , ⟨41.20, 109.0, 0.5950, 0.8757, 0.4187, 0.9092⟩
  , ⟨55.19, 146.0, 0.5545, 0.8903, 0.3798, 0.9222⟩
  , ⟨70.69, 187.0, 0.5333, 0.8997, 0.3497, 0.9319⟩
  , ⟨90.34, 239.0, 0.5189, 0.9073, 0.3223, 0.9403⟩
  , ⟨115.29, 305.0, 0.5181, 0.9122, 0.2971, 0.9477⟩
  , ⟨147.42, 390.0, 0.5176, 0.9171, 0.2737, 0.9544⟩
  , ⟨188.24, 498.0, 0.5172, 0.9217, 0.2523, 0.9602⟩
  , ⟨240.03, 635.0, 0.5119, 0.9267, 0.2327, 0.9653⟩ ]

/-- The full coefficient table of `Model.set_time_constants`, keyed by the
deco-model selector. -/
def zhl16Rows (dm : DecoModel) (bv : BuhlmannVariant) : List TimeConstRow :=
  match dm with
  | DecoModel.ZHL16a => zhl16aRows bv
  | DecoModel.ZHL16b => zhl16bRows bv
  | DecoModel.ZHL16c => zhl16cRows bv

/-- Row lookup for compartment `i`. -/
def zhl16Row (dm : DecoModel) (bv : BuhlmannVariant) (i : Fin 16) :
    TimeConstRow :=
  (zhl16Rows dm bv).getD i.val default

/-- Applies a coefficient row to a compartment, exactly as
`set_compartment_time_constants` does. -/
def applyRow (R : RealFns) (r : TimeConstRow) (c : Compartment) :
    Compartment :=
  c.set_compartment_time_constants R r.h_he r.h_n2 r.a_he r.b_he r.a_n2 r.b_n2

/-- The Bühlmann model (model.py): 16 compartments, OxTox and Gradient
state, the stored water-vapour partial pressure, units and metadata. -/
structure Model where
  tissues : Fin 16 → Compartment
  ox_tox : OxTox
  gradient : Gradient
  pp_h2o : ℚ
  units : String
  metadata : String

/-- `Model.set_time_constants` (model.py lines 150-275): loads the
coefficient row of the selected deco model and helium sub-variant into every
compartment. -/
def Model.set_time_constants (R : RealFns) (S : Settings) (m : Model) :
    Model :=
  { m with tissues := fun i =>
      applyRow R (zhl16Row S.deco_model S.buhlmann_values i) (m.tissues i) }

/-- `Model.__init__` (model.py lines 63-89): metric units, zeroed OxTox,
gradient from the configured factors, water vapour pressure from the surface
temperature, time constants from the configured table, and every compartment
initialised to pp_he = 0 and pp_n2 = F_N2_air · (P_surface − pp_h2o).
`Gradient(gf_low, gf_high)` starts with the current factor at gf_high (§3:
current_gf is gf_high until a first stop is set). -/
def Model.init (R : RealFns) (S : Settings) : Model :=
  let pp_h2o := R.ppH2OSurf S.surface_temp
  let base : Model :=
    { tissues := fun _ => Compartment.init
      ox_tox := { otu := 0, cns := 0 }
      gradient := { gf_low := S.gf_low, gf_high := S.gf_high, gf := S.gf_high }
      pp_h2o := pp_h2o
      units := "metric"
      metadata := "(none)" }
  let withConsts := base.set_time_constants R S
  { withConsts with tissues := fun i =>
      { withConsts.tissues i with
        pp_he := 0
        pp_n2 := S.default_air_f_innert_gas *
          (S.ambiant_pressure_surface - pp_h2o) } }

/-- Modelled from the spec: the metre↔bar conversion constant of `tools.py`
(not under `src/`): 1 m of water ≈ 0.0998 bar (§4.4). -/
def barPerMetre : ℚ := 0.0998

/-- Modelled from the spec: `tools.depth_to_pressure`. -/
def depth_to_pressure (depth : ℚ) : ℚ := depth * barPerMetre

/-- Modelled from the spec: `tools.pressure_to_depth`. -/
def pressure_to_depth (pressure : ℚ) : ℚ := pressure / barPerMetre

/-- One iteration of the Python `for comp in self.tissues` loop: if an
exception is already propagating, nothing more runs; otherwise compartment
`i` is updated, and a raised error stops the remaining iterations while the
compartments already written keep their new values. -/
def tissueStep (f : Compartment → Compartment × Option Err)
    (acc : Model × Option Err) (i : Fin 16) : Model × Option Err :=
  match acc.2 with
  | some e => (acc.1, some e)
  | none =>
    let r := f (acc.1.tissues i)
    match r.2 with
    | some e => (acc.1, some e)
    | none =>
      ({ acc.1 with tissues := Function.update acc.1.tissues i r.1 }, none)

/-- Runs `f` over the 16 tissues in index order, stopping at the first
compartment whose update raises — the Python `for comp in self.tissues`
loop. -/
def Model.updateTissues (f : Compartment → Compartment × Option Err)
    (m : Model) : Model × Option Err :=
  (List.finRange 16).foldl (tissueStep f) (m, none)

/-- `Model.const_depth` (model.py lines 371-428): computes the inspired
inert partial pressures (CCR branch when pp_o2 > 0, otherwise open circuit),
updates OxTox, then — only when seg_time > 0 — integrates every
compartment. -/
def Model.const_depth (R : RealFns) (S : Settings)
    (pressure seg_time f_he f_n2 pp_o2 : ℚ) (m : Model) :
    Model × Option Err :=
  let ambiant_pressure := pressure + S.ambiant_pressure_surface
  let step2 : ℚ → ℚ → OxTox → Model × Option Err :=
    fun pp_he_inspired pp_n2_inspired ox =>
      let m1 : Model := { m with ox_tox := ox }
      if seg_time > 0 then
        m1.updateTissues
          (Compartment.const_depth R pp_he_inspired pp_n2_inspired seg_time)
      else
        (m1, none)
  if pp_o2 > 0 then
    -- CCR mode
    let p_inert : ℚ :=
      if f_he + f_n2 > 0 then ambiant_pressure - pp_o2 - m.pp_h2o else 0
    let pp_he_inspired : ℚ :=
      if p_inert > 0 then (p_inert * f_he) / (f_he + f_n2) else 0
    let pp_n2_inspired : ℚ :=
      if p_inert > 0 then (p_inert * f_n2) / (f_he + f_n2) else 0
    let ox :=
      if pp_o2 ≤ ambiant_pressure ∧ p_inert > 0 then
        m.ox_tox.add_o2 R seg_time pp_o2
      else
        m.ox_tox.add_o2 R seg_time (ambiant_pressure - m.pp_h2o)
    step2 pp_he_inspired pp_n2_inspired ox
  else
    -- OC mode
    let pp_he_inspired := (ambiant_pressure - m.pp_h2o) * f_he
    let pp_n2_inspired := (ambiant_pressure - m.pp_h2o) * f_n2
    let ox :=
      if pressure = 0 then
        m.ox_tox.remove_o2 R seg_time
      else
        m.ox_tox.add_o2 R seg_time
          ((ambiant_pressure - m.pp_h2o) * (1 - f_he - f_n2))
    step2 pp_he_inspired pp_n2_inspired ox

/-- `Model.asc_desc` (model.py lines 430-497): converts the rate to bar per
time unit, derives the segment time, computes inspired partial pressures and
their rates of change (CCR or OC), updates OxTox, then integrates every
compartment with the Schreiner equation.  The two Python `ZeroDivisionError`
sites — `rate = 0` when computing seg_time, and `seg_time = 0` when computing
the CCR gas rates — surface as ModelState errors raised before any mutation,
exactly where the Python exception is thrown. -/
def Model.asc_desc (R : RealFns) (S : Settings)
    (start finish rate f_he f_n2 pp_o2 : ℚ) (m : Model) :
    Model × Option Err :=
  let start_ambiant_pressure := start + S.ambiant_pressure_surface
  let finish_ambiant_pressure := finish + S.ambiant_pressure_surface
  let rateBar := depth_to_pressure rate
  if rateBar = 0 then
    (m, some Err.modelState)
  else
    let seg_time := |(finish - start) / rateBar|
    let run : ℚ → ℚ → ℚ → ℚ → OxTox → Model × Option Err :=
      fun pp_he_inspired pp_n2_inspired rate_he rate_n2 ox =>
        ({ m with ox_tox := ox } : Model).updateTissues
          (Compartment.asc_desc R pp_he_inspired pp_n2_inspired
            rate_he rate_n2 seg_time)
    if pp_o2 > 0 then
      -- CCR mode
      let p_inert_start0 := start_ambiant_pressure - pp_o2 - m.pp_h2o
      let p_inert_finish0 := finish_ambiant_pressure - pp_o2 - m.pp_h2o
      let p_inert_start := if p_inert_start0 < 0 then 0 else p_inert_start0
      let p_inert_finish := if p_inert_finish0 < 0 then 0 else p_inert_finish0
      if f_he + f_n2 > 0 then
        if seg_time = 0 then
          (m, some Err.modelState)
        else
          let pp_he_inspired := (p_inert_start * f_he) / (f_he + f_n2)
          let pp_n2_inspired := (p_inert_start * f_n2) / (f_he + f_n2)
          let rate_he := ((p_inert_finish * f_he) / (f_he + f_n2) -
            pp_he_inspired) / seg_time
          let rate_n2 := ((p_inert_finish * f_n2) / (f_he + f_n2) -
            pp_n2_inspired) / seg_time
          run pp_he_inspired pp_n2_inspired rate_he rate_n2
            (m.ox_tox.add_o2 R seg_time pp_o2)
      else
        run 0 0 0 0 (m.ox_tox.add_o2 R seg_time pp_o2)
    else
      -- OC mode
      let pp_he_inspired := (start_ambiant_pressure - m.pp_h2o) * f_he
      let pp_n2_inspired := (start_ambiant_pressure - m.pp_h2o) * f_n2
      let rate_he := rateBar * f_he
      let rate_n2 := rateBar * f_n2
      let pp_o2_inspired_avg :=
        ((start_ambiant_pressure - finish_ambiant_pressure) / 2 +
          finish_ambiant_pressure - m.pp_h2o) * (1 - f_he - f_n2)
      run pp_he_inspired pp_n2_inspired rate_he rate_n2
        (m.ox_tox.add_o2 R seg_time pp_o2_inspired_avg)

/-- `Model.validate_model` (model.py lines 277-300): raises a validation
error (leaving the model untouched) when some compartment has pp_n2 ≤ 0 or
pp_he < 0; otherwise, when any time constant or M-value coefficient is zero,
reloads all coefficients from the configured table. -/
def Model.validate_model (R : RealFns) (S : Settings) (m : Model) :
    Model × Option Err :=
  if (List.finRange 16).any (fun i =>
      decide ((m.tissues i).pp_n2 ≤ 0) || decide ((m.tissues i).pp_he < 0)) then
    (m, some Err.validation)
  else if (List.finRange 16).any (fun i =>
      let c := m.tissues i
      decide (c.k_he = 0) || decide (c.k_n2 = 0) || decide (c.a_he = 0) ||
      decide (c.b_he = 0) || decide (c.a_n2 = 0) || decide (c.b_n2 = 0)) then
    (m.set_time_constants R S, none)
  else
    (m, none)

/-- `Model.control_compartment` (model.py lines 302-319): scans the 16
compartments, tracking the greatest `get_max_amb(gf) − P_surface` strictly
above the initial accumulator 0, and returns the winning index plus one. -/
def Model.control_compartment (S : Settings) (m : Model) : ℕ :=
  ((List.finRange 16).foldl
    (fun acc i =>
      let pressure :=
        (m.tissues i).get_max_amb m.gradient.gf - S.ambiant_pressure_surface
      if pressure > acc.2 then (i.val, pressure) else acc)
    ((0 : ℕ), (0 : ℚ))).1 + 1

/-- `Model.ceiling` (model.py lines 321-335): greatest
`get_max_amb(gf) − P_surface` strictly above 0, converted to a depth. -/
def Model.ceiling (S : Settings) (m : Model) : ℚ :=
  pressure_to_depth
    ((List.finRange 16).foldl
      (fun pressure i =>
        let comp_pressure :=
          (m.tissues i).get_max_amb m.gradient.gf - S.ambiant_pressure_surface
        if comp_pressure > pressure then comp_pressure else pressure)
      0)

/-- `Model.ceiling_in_pabs` (model.py lines 337-350): greatest
`get_max_amb(gf)` strictly above 0, as an absolute pressure. -/
def Model.ceiling_in_pabs (m : Model) : ℚ :=
  (List.finRange 16).foldl
    (fun pressure i =>
      let comp_pressure := (m.tissues i).get_max_amb m.gradient.gf
      if comp_pressure > pressure then comp_pressure else pressure)
    0

/-! ### Specification-side definitions

Definitions below transcribe the wording of the spec (and of the claims)
rather than the source; the theorems compare them with the code embedding
above. -/

/-- The true maximum of a 16-indexed family of rationals (the spec's
"take the maximum over the 16 compartments", with no clamping). -/
def vmax16 (f : Fin 16 → ℚ) : ℚ :=
  (List.finRange 16).foldl (fun a i => max a (f i)) (f 0)

/-- Equality of two coefficient rows in every component except the N₂ a
coefficient. -/
def rowEqExceptAN2 (r s : TimeConstRow) : Prop :=
  r.h_he = s.h_he ∧ r.h_n2 = s.h_n2 ∧ r.a_he = s.a_he ∧ r.b_he = s.b_he ∧
    r.b_n2 = s.b_n2

/-- The claim's (spec §4.4) inert pressure for the CCR branch:
`p_inert = max(0, P_amb − pp_o2_set − pp_h2o)`. -/
def ccr_p_inert (S : Settings) (pressure pp_o2 pp_h2o : ℚ) : ℚ :=
  max 0 (pressure + S.ambiant_pressure_surface - pp_o2 - pp_h2o)

/-- The claim's inspired He partial pressure for the CCR branch. -/
def ccr_pp_he_inspired (S : Settings) (pressure pp_o2 pp_h2o f_he f_n2 : ℚ) :
    ℚ :=
  if 0 < f_he + f_n2 then
    ccr_p_inert S pressure pp_o2 pp_h2o * f_he / (f_he + f_n2)
  else 0

/-- The claim's inspired N₂ partial pressure for the CCR branch. -/
def ccr_pp_n2_inspired (S : Settings) (pressure pp_o2 pp_h2o f_he f_n2 : ℚ) :
    ℚ :=
  if 0 < f_he + f_n2 then
    ccr_p_inert S pressure pp_o2 pp_h2o * f_n2 / (f_he + f_n2)
  else 0

/-- The effective pp_o2 handed to OxTox in the CCR branch, as amended: the
setpoint is used only when it does not exceed ambient pressure, the inert
pressure is positive AND the diluent contains inert gas (f_he + f_n2 > 0);
otherwise ambient minus water vapour.  (The claim omits the third
conjunct.) -/
def ccr_pp_o2_effective (S : Settings)
    (pressure pp_o2 pp_h2o f_he f_n2 : ℚ) : ℚ :=
  if pp_o2 ≤ pressure + S.ambiant_pressure_surface ∧
      0 < ccr_p_inert S pressure pp_o2 pp_h2o ∧ 0 < f_he + f_n2 then
    pp_o2
  else
    pressure + S.ambiant_pressure_surface - pp_h2o

/-- Zeroes both decay constants of every compartment (the serialisation
state that `validate_model` is documented to repair). -/
def zeroK (m : Model) : Model :=
  { m with tissues := fun i => { m.tissues i with k_he := 0, k_n2 := 0 } }

/-! ### Heap model for clone independence

The Python `Model.__deepcopy__` is about object identity: the clone must
share no mutable object with the original.  A shallow value embedding cannot
express aliasing, so clone independence is settled over an explicit
store-and-reference model: compartments, OxTox and Gradient objects live in
a heap, a model holds addresses, operations write through the model's own
addresses, and `__deepcopy__` allocates fresh cells. -/

/-- A store of the three kinds of mutable objects a Model owns. -/
structure Heap where
  comps : List Compartment
  oxs : List OxTox
  grads : List Gradient

/-- A Model as an object graph: addresses of its 16 compartments, its OxTox
and its Gradient, plus its immutable value fields. -/
structure ModelRef where
  tissues_addr : Fin 16 → ℕ
  ox_addr : ℕ
  grad_addr : ℕ
  pp_h2o : ℚ
  units : String
  metadata : String

/-- Well-formedness: every address of the model points into the heap. -/
def Heap.wf (h : Heap) (r : ModelRef) : Prop :=
  (∀ i, r.tissues_addr i < h.comps.length) ∧
    r.ox_addr < h.oxs.length ∧ r.grad_addr < h.grads.length

/-- Everything observable about a model object: its value fields and the
contents of every heap cell it references (each compartment's pressures and
coefficients, the OxTox counters, the Gradient state, pp_h2o, units,
metadata). -/
def readModel (h : Heap) (r : ModelRef) :
    (Fin 16 → Option Compartment) × Option OxTox × Option Gradient ×
      ℚ × String × String :=
  (fun i => h.comps[r.tissues_addr i]?, h.oxs[r.ox_addr]?,
    h.grads[r.grad_addr]?, r.pp_h2o, r.units, r.metadata)

/-- `Model.__deepcopy__` (model.py lines 91-108) over the heap model:
`Model()` first allocates 16 fresh compartments, a fresh OxTox and a fresh
Gradient (with the initialisation values), then each tissue, the OxTox and
the Gradient are replaced by freshly allocated copies of the original's
objects.  The returned reference points only at cells appended beyond the
original heap; `units` and `metadata` are copied, while `pp_h2o` is the
freshly initialised value (the constructor recomputes it, `__deepcopy__`
does not copy it). -/
def Model.deepcopy (R : RealFns) (S : Settings) (h : Heap) (r : ModelRef) :
    Heap × ModelRef :=
  let initM := Model.init R S
  ({ comps := (h.comps ++ (List.finRange 16).map (fun i => initM.tissues i)) ++
      (List.finRange 16).map
        (fun i => h.comps.getD (r.tissues_addr i) Compartment.init)
     oxs := h.oxs ++ [initM.ox_tox, h.oxs.getD r.ox_addr initM.ox_tox]
     grads := h.grads ++
       [initM.gradient, h.grads.getD r.grad_addr initM.gradient] },
   { tissues_addr := fun i => h.comps.length + 16 + i.val
     ox_addr := h.oxs.length + 1
     grad_addr := h.grads.length + 1
     pp_h2o := initM.pp_h2o
     units := r.units
     metadata := r.metadata })

/-- One mutation step through a model reference: new values for the model's
own compartments, OxTox and Gradient, computed from the current heap.  Every
Model operation (const_depth, asc_desc, validate_model, set_time_constants)
has this shape: it reads and writes only the objects the model owns. -/
structure MStep where
  newComps : Heap → Fin 16 → Compartment
  newOx : Heap → OxTox
  newGrad : Heap → Gradient

/-- Applies a mutation step through the reference `c`: writes the new
values at `c`'s addresses, leaving every other cell untouched. -/
def applyMStep (c : ModelRef) (h : Heap) (st : MStep) : Heap :=
  { comps := (List.finRange 16).foldl
      (fun l i => l.set (c.tissues_addr i) (st.newComps h i)) h.comps
    oxs := h.oxs.set c.ox_addr (st.newOx h)
    grads := h.grads.set c.grad_addr (st.newGrad h) }

/-- Applies a sequence of mutation steps through the reference `c`. -/
def applyMSteps (c : ModelRef) (h : Heap) (steps : List MStep) : Heap :=
  steps.foldl (applyMStep c) h

/-! ### Concrete instances used by witnesses and counterexamples -/

/-- A concrete instantiation of the abstract real functions (any values
work; the verified properties never depend on them). -/
def R0 : RealFns :=
  { exp := fun _ => 1, ln2 := 0.6931, otuRate := fun _ => 1
    cnsRate := fun _ => 1, cnsDecayFactor := fun _ => 1
    ppH2OSurf := fun _ => 0.0627 }

/-- A second instantiation whose OTU rate distinguishes different pp_o2
arguments (consistent with the Hamilton formula being injective on
[0.5, 3]). -/
def R1 : RealFns :=
  { exp := fun _ => 1, ln2 := 1, otuRate := fun pp => pp
    cnsRate := fun _ => 0, cnsDecayFactor := fun _ => 1
    ppH2OSurf := fun _ => 0.0627 }

/-- The spec §6 default configuration. -/
def S0 : Settings :=
  { deco_model := DecoModel.ZHL16b, buhlmann_values := BuhlmannVariant.v1b
    gf_low := 0.3, gf_high := 0.8, surface_temp := 20
    ambiant_pressure_surface := 1.01325
    default_air_f_innert_gas := 0.7902 }

/-- A compartment loaded with the ZH-L16-1b fast-compartment N₂
coefficients and a small N₂ load (surface-cleared tissue). -/
def cSmall : Compartment :=
  { pp_he := 0, pp_n2 := 1/10, k_he := 1, k_n2 := 1
    a_he := 1.6189, b_he := 0.4770, a_n2 := 1.1696, b_n2 := 0.5578 }

/-- Like `cSmall` with a larger N₂ load (still surface-cleared). -/
def cMid : Compartment :=
  { pp_he := 0, pp_n2 := 1/2, k_he := 1, k_n2 := 1
    a_he := 1.6189, b_he := 0.4770, a_n2 := 1.1696, b_n2 := 0.5578 }

/-- A model state with every compartment equal to `cSmall`. -/
def mSmall : Model :=
  { tissues := fun _ => cSmall
    ox_tox := { otu := 0, cns := 0 }
    gradient := { gf_low := 0.3, gf_high := 0.8, gf := 0.8 }
    pp_h2o := 0.0627
    units := "metric"
    metadata := "(none)" }

/-- A model state whose unique most-loaded compartment is index 1, every
compartment being surface-cleared. -/
def mC7 : Model :=
  { mSmall with tissues := fun j => if j = 1 then cMid else cSmall }

/-- A base compartment with valid pressures, used to build a model whose
coefficients agree with the configured table. -/
def cBase : Compartment :=
  { pp_he := 0, pp_n2 := 1, k_he := 1, k_n2 := 1
    a_he := 1, b_he := 1, a_n2 := 1, b_n2 := 1 }

/-- A model whose compartments carry exactly the configured table's
coefficients (as any model built by the program does). -/
def mC8 : Model :=
  { mSmall with tissues :=
      fun i => applyRow R0 (zhl16Row S0.deco_model S0.buhlmann_values i) cBase }

/-- A corrupted model state: every compartment has pp_n2 = 0. -/
def mC8bad : Model :=
  { mSmall with tissues := fun _ => { cBase with pp_n2 := 0 } }

/-- A tiny concrete heap: 16 compartments, one OxTox, one Gradient. -/
def h0 : Heap :=
  { comps := List.replicate 16 cBase
    oxs := [{ otu := 0, cns := 0 }]
    grads := [{ gf_low := 0.3, gf_high := 0.8, gf := 0.8 }] }

/-- The reference owning all of `h0`. -/
def r0 : ModelRef :=
  { tissues_addr := fun i => i.val, ox_addr := 0, grad_addr := 0
    pp_h2o := 0.0627, units := "metric", metadata := "(none)" }

/-- A concrete mutation step overwriting every owned object. -/
def step0 : MStep :=
  { newComps := fun _ _ => cSmall
    newOx := fun _ => { otu := 5, cns := 5 }
    newGrad := fun _ => { gf_low := 1, gf_high := 1, gf := 1 } }

/-- Like `cSmall` with a heavy N₂ load (tolerated ambient pressure above
the surface pressure). -/
def cBig : Compartment :=
  { pp_he := 0, pp_n2 := 3, k_he := 1, k_n2 := 1
    a_he := 1.6189, b_he := 0.4770, a_n2 := 1.1696, b_n2 := 0.5578 }

/-- A model state whose unique most-loaded compartment, index 2, is above
surface pressure. -/
def mBig : Model :=
  { mSmall with tissues := fun j => if j = 2 then cBig else cSmall }

/-! ### Theorems -/

/-- C4: for every rate-zero call of `asc_desc`, the Python division
`(finish - start) / rate` raises (a ModelState-kind error in the spec's
taxonomy) before any mutation, so the error is returned with the model
exactly unchanged. -/
theorem c4_asc_desc_zero_rate (R : RealFns) (S : Settings)
    (start finish f_he f_n2 pp_o2 : ℚ) (m : Model) :
    Model.asc_desc R S start finish 0 f_he f_n2 pp_o2 m =
      (m, some Err.modelState) := by
  simp [Model.asc_desc, depth_to_pressure]

/-- C5 counterexample: the ZH-L16c and ZH-L16b tables also differ in the N₂
a coefficient of compartment 14 (0.2480 vs 0.2523), so the claim that every
entry outside compartments 4..13 is identical is false. -/
theorem c5_counterexample :
    (zhl16Row DecoModel.ZHL16c BuhlmannVariant.v1b ⟨14, by omega⟩).a_n2 ≠
      (zhl16Row DecoModel.ZHL16b BuhlmannVariant.v1b ⟨14, by omega⟩).a_n2 := by
  norm_num [zhl16Row, zhl16Rows, zhl16cRows, zhl16bRows, row0,
    List.getD_cons_zero, List.getD_cons_succ]

set_option maxHeartbeats 2000000 in
/-- C5 (amended): the ZH-L16c table differs from the ZH-L16b table exactly
in the N₂ a-coefficients of compartments 4..14; every other entry (all
half-times, all He coefficients, all b coefficients, and the N₂
a-coefficients of compartments 0..3 and 15) is identical. -/
theorem c5_tables_amended (bv : BuhlmannVariant) (i : Fin 16) :
    rowEqExceptAN2 (zhl16Row DecoModel.ZHL16c bv i)
        (zhl16Row DecoModel.ZHL16b bv i) ∧
      ((zhl16Row DecoModel.ZHL16c bv i).a_n2 =
          (zhl16Row DecoModel.ZHL16b bv i).a_n2 ↔
        i.val < 4 ∨ 15 ≤ i.val) := by
  cases bv <;> fin_cases i <;>
    refine ⟨⟨rfl, rfl, rfl, rfl, rfl⟩, ?_⟩ <;>
      first
        | exact iff_of_true rfl (by norm_num)
        | exact iff_of_false (by norm_num [zhl16Row, zhl16Rows, zhl16cRows,
            zhl16bRows, row0, List.getD_cons_zero, List.getD_cons_succ])
            (by norm_num)

/-- C6 counterexample: compartment 8 has the same N₂ a coefficient (0.4187)
in the ZH-L16a and ZH-L16b tables, so the claim that each of compartments
5..12 has a different N₂ a value is false. -/
theorem c6_counterexample :
    (zhl16Row DecoModel.ZHL16a BuhlmannVariant.v1b ⟨8, by omega⟩).a_n2 =
      (zhl16Row DecoModel.ZHL16b BuhlmannVariant.v1b ⟨8, by omega⟩).a_n2 :=
  rfl

set_option maxHeartbeats 2000000 in
/-- C6 (amended): the ZH-L16a table differs from the ZH-L16b table exactly
in the N₂ a coefficients of compartments 5, 6, 7 and 12, and in no other
entry. -/
theorem c6_tables_amended (bv : BuhlmannVariant) (i : Fin 16) :
    rowEqExceptAN2 (zhl16Row DecoModel.ZHL16a bv i)
        (zhl16Row DecoModel.ZHL16b bv i) ∧
      ((zhl16Row DecoModel.ZHL16a bv i).a_n2 =
          (zhl16Row DecoModel.ZHL16b bv i).a_n2 ↔
        ¬(i.val = 5 ∨ i.val = 6 ∨ i.val = 7 ∨ i.val = 12)) := by
  cases bv <;> fin_cases i <;>
    refine ⟨⟨rfl, rfl, rfl, rfl, rfl⟩, ?_⟩ <;>
      first
        | exact iff_of_true rfl (by norm_num)
        | exact iff_of_false (by norm_num [zhl16Row, zhl16Rows, zhl16aRows,
            zhl16bRows, row0, List.getD_cons_zero, List.getD_cons_succ])
            (by norm_num)

/-- The accumulator step of the model's maximum-scan loops is a `max`. -/
theorem if_gt_eq_max (a v : ℚ) : (if v > a then v else a) = max a v := by
  rcases lt_or_ge a v with h | h
  · rw [if_pos h, max_eq_right h.le]
  · rw [if_neg (not_lt_of_ge h), max_eq_left h]

/-- A `foldl max` starting from `max a b` pulls `a` out. -/
theorem foldl_max_shift {α : Type} (f : α → ℚ) (l : List α) :
    ∀ a b : ℚ, l.foldl (fun acc i => max acc (f i)) (max a b) =
      max a (l.foldl (fun acc i => max acc (f i)) b) := by
  induction l with
  | nil => intro a b; simp
  | cons x t ih =>
    intro a b
    simp only [List.foldl_cons]
    rw [max_assoc, ih]

/-- A `foldl max` over values shifted down by `P` is the shifted fold. -/
theorem foldl_max_sub {α : Type} (f : α → ℚ) (P : ℚ) (l : List α) :
    ∀ a : ℚ, l.foldl (fun acc i => max acc (f i - P)) (a - P) =
      l.foldl (fun acc i => max acc (f i)) a - P := by
  induction l with
  | nil => intro a; simp
  | cons x t ih =>
    intro a
    simp only [List.foldl_cons]
    rw [max_sub_sub_right, ih]

/-- The model's maximum-scan loop (accumulator initialised at 0, strict
comparison) computes the 0-clamped true maximum. -/
theorem code_fold_max (g : Fin 16 → ℚ) :
    (List.finRange 16).foldl (fun p i => if g i > p then g i else p) 0 =
      max 0 (vmax16 g) := by
  have hl : List.finRange 16 = (0 : Fin 16) :: (List.finRange 16).tail := rfl
  simp only [if_gt_eq_max]
  rw [vmax16, hl, List.foldl_cons, List.foldl_cons, max_self,
    show max (0 : ℚ) (g 0) = max 0 (g 0) from rfl,
    foldl_max_shift g ((List.finRange 16).tail) 0 (g 0)]

/-- `vmax16` commutes with subtracting a constant. -/
theorem vmax16_sub (f : Fin 16 → ℚ) (P : ℚ) :
    vmax16 (fun i => f i - P) = vmax16 f - P :=
  foldl_max_sub f P (List.finRange 16) (f 0)

/-- `ceiling_in_pabs` is the 0-clamped maximum of `get_max_amb` over the 16
compartments. -/
theorem Model.ceiling_in_pabs_eq (m : Model) :
    m.ceiling_in_pabs =
      max 0 (vmax16 (fun i => (m.tissues i).get_max_amb m.gradient.gf)) :=
  code_fold_max (fun i => (m.tissues i).get_max_amb m.gradient.gf)

/-- C3 (amended): `ceiling()` is the claimed value — maximum of
`max_amb(current_gf)` over the 16 compartments, minus surface pressure,
converted bar→metres, clamped non-negative.  `ceiling_in_pabs()` however is
the maximum of `max_amb(current_gf)` clamped below at 0 (its scan accumulator
starts at 0), so it can be below surface pressure but never negative. -/
theorem c3_ceiling_amended (S : Settings) (m : Model) :
    Model.ceiling S m =
      max 0 ((vmax16 (fun i => (m.tissues i).get_max_amb m.gradient.gf) -
        S.ambiant_pressure_surface) / barPerMetre) ∧
    Model.ceiling_in_pabs m =
      max 0 (vmax16 (fun i => (m.tissues i).get_max_amb m.gradient.gf)) := by
  constructor
  · have h := code_fold_max
      (fun i => (m.tissues i).get_max_amb m.gradient.gf -
        S.ambiant_pressure_surface)
    have hb : (0 : ℚ) ≤ barPerMetre := by norm_num [barPerMetre]
    calc Model.ceiling S m
        = pressure_to_depth (max 0 (vmax16
            (fun i => (m.tissues i).get_max_amb m.gradient.gf -
              S.ambiant_pressure_surface))) := congrArg pressure_to_depth h
      _ = max 0 ((vmax16 (fun i => (m.tissues i).get_max_amb m.gradient.gf) -
            S.ambiant_pressure_surface) / barPerMetre) := by
          rw [vmax16_sub, pressure_to_depth, ← max_div_div_right hb,
            zero_div]
  · exact m.ceiling_in_pabs_eq

/-- Any maximum-scan over values all below a bound, from a start below the
bound, stays below the bound. -/
theorem foldl_max_lt {α : Type} (f : α → ℚ) (b : ℚ) (l : List α) :
    ∀ a : ℚ, a < b → (∀ i ∈ l, f i < b) →
      l.foldl (fun acc i => max acc (f i)) a < b := by
  induction l with
  | nil => intro a ha _; simpa using ha
  | cons x t ih =>
    intro a ha hl
    simp only [List.foldl_cons]
    exact ih _ (max_lt ha (hl x (List.mem_cons_self x t)))
      (fun i hi => hl i (List.mem_cons_of_mem x hi))

/-- The whole maximum is below a bound when all 16 values are. -/
theorem vmax16_lt (f : Fin 16 → ℚ) (b : ℚ) (h : ∀ i, f i < b) :
    vmax16 f < b :=
  foldl_max_lt f b (List.finRange 16) (f 0) (h 0) (fun i _ => h i)

/-- C3 counterexample: a model state in which every compartment is
surface-clear with a negative tolerated ambient pressure; the claimed
unclamped maximum is negative, but `ceiling_in_pabs` returns 0 — the claim
that it carries "no subtraction and no clamp (so it can be ... negative)" is
false. -/
theorem c3_counterexample :
    Model.ceiling_in_pabs mSmall = 0 ∧
    vmax16 (fun i => (mSmall.tissues i).get_max_amb mSmall.gradient.gf) <
      0 := by
  have hv : vmax16 (fun i => (mSmall.tissues i).get_max_amb
      mSmall.gradient.gf) < 0 := by
    apply vmax16_lt
    intro i
    show cSmall.get_max_amb (0.8 : ℚ) < 0
    rw [Compartment.get_max_amb]
    norm_num [cSmall]
  exact ⟨by rw [Model.ceiling_in_pabs_eq, max_eq_left hv.le], hv⟩

/-- Once an error propagates, the remaining loop iterations do nothing. -/
theorem tissueStep_skip (f : Compartment → Compartment × Option Err)
    (l : List (Fin 16)) (m : Model) (e : Err) :
    l.foldl (tissueStep f) (m, some e) = (m, some e) := by
  induction l with
  | nil => rfl
  | cons x t ih => simpa [tissueStep] using ih

/-- When the per-compartment update always raises, the loop raises at the
first compartment and no tissue is modified. -/
theorem updateTissues_err (f : Compartment → Compartment × Option Err)
    (m : Model) (e : Err) (hf : ∀ c, (f c).2 = some e) :
    m.updateTissues f = (m, some e) := by
  have hl : List.finRange 16 = (0 : Fin 16) :: (List.finRange 16).tail := rfl
  rw [Model.updateTissues, hl, List.foldl_cons]
  have h0 : tissueStep f (m, none) 0 = (m, some e) := by
    unfold tissueStep
    simp only []
    rw [show (f (m.tissues 0)).2 = some e from hf _]
  rw [h0, tissueStep_skip]

/-- When the per-compartment update always succeeds, the loop applies `f`
to every tissue and reports no error. -/
theorem tissueStep_fold_ok (f : Compartment → Compartment × Option Err)
    (hf : ∀ c, (f c).2 = none) (l : List (Fin 16)) :
    l.Nodup → ∀ mm : Model,
      l.foldl (tissueStep f) (mm, none) =
        ({ mm with tissues := fun i =>
            if i ∈ l then (f (mm.tissues i)).1 else mm.tissues i }, none) := by
  induction l with
  | nil =>
    intro _ mm
    simp
  | cons x t ih =>
    intro hnd mm
    obtain ⟨hx, hndt⟩ := List.nodup_cons.mp hnd
    simp only [List.foldl_cons]
    have hstep : tissueStep f (mm, none) x =
        ({ mm with tissues :=
            Function.update mm.tissues x (f (mm.tissues x)).1 }, none) := by
      unfold tissueStep
      simp only []
      rw [show (f (mm.tissues x)).2 = none from hf _]
    rw [hstep, ih hndt]
    obtain ⟨tis, ox, gr, ph, un, md⟩ := mm
    simp only [Prod.mk.injEq, Model.mk.injEq, and_true, true_and]
    funext i
    by_cases hit : i ∈ t
    · have hix : i ≠ x := fun h => hx (h ▸ hit)
      simp [hit, hix, Function.update_apply, List.mem_cons]
    · by_cases hix : i = x
      · subst hix
        simp [hit, Function.update_apply, List.mem_cons]
      · simp [hit, hix, Function.update_apply, List.mem_cons]

/-- The loop over all 16 tissues, when every update succeeds. -/
theorem updateTissues_ok (f : Compartment → Compartment × Option Err)
    (m : Model) (hf : ∀ c, (f c).2 = none) :
    m.updateTissues f =
      ({ m with tissues := fun i => (f (m.tissues i)).1 }, none) := by
  rw [Model.updateTissues, tissueStep_fold_ok f hf _ (List.nodup_finRange 16)]
  simp [List.mem_finRange]

/-- C10: `const_depth` with seg_time ≤ 0 raises no error, skips the
per-compartment integration loop entirely (every compartment is exactly as
before), yet still updates the OxTox object with the given seg_time
(`add_o2`, or `remove_o2` at the surface on open circuit): a negative
seg_time is accepted silently at the Model level. -/
theorem c10_const_depth_nonpos_time (R : RealFns) (S : Settings)
    (pressure seg_time f_he f_n2 pp_o2 : ℚ) (m : Model)
    (ht : seg_time ≤ 0) :
    (Model.const_depth R S pressure seg_time f_he f_n2 pp_o2 m).2 = none ∧
    (∀ i, (Model.const_depth R S pressure seg_time f_he f_n2 pp_o2 m).1.tissues
      i = m.tissues i) ∧
    ((∃ pp, (Model.const_depth R S pressure seg_time f_he f_n2 pp_o2
        m).1.ox_tox = m.ox_tox.add_o2 R seg_time pp) ∨
      (Model.const_depth R S pressure seg_time f_he f_n2 pp_o2 m).1.ox_tox =
        m.ox_tox.remove_o2 R seg_time) := by
  have ht' : ¬(seg_time > 0) := not_lt.mpr ht
  rw [Model.const_depth]
  simp only [ht', if_false]
  split_ifs <;>
    refine ⟨rfl, fun i => rfl, ?_⟩ <;>
    first
      | exact Or.inl ⟨_, rfl⟩
      | exact Or.inr rfl

/-- C10 witness: at seg_time = −60 on open-circuit air at depth, no error,
untouched compartments, OxTox updated with −60. -/
theorem c10_witness :
    (Model.const_depth R0 S0 1 (-60) 0 (79/100) 0 mSmall).2 = none ∧
    (∀ i, (Model.const_depth R0 S0 1 (-60) 0 (79/100) 0 mSmall).1.tissues i =
      mSmall.tissues i) ∧
    ((∃ pp, (Model.const_depth R0 S0 1 (-60) 0 (79/100) 0 mSmall).1.ox_tox =
        mSmall.ox_tox.add_o2 R0 (-60) pp) ∨
      (Model.const_depth R0 S0 1 (-60) 0 (79/100) 0 mSmall).1.ox_tox =
        mSmall.ox_tox.remove_o2 R0 (-60)) :=
  c10_const_depth_nonpos_time R0 S0 1 (-60) 0 (79/100) 0 mSmall (by norm_num)

/-- The claimed CCR inspired He pressure is non-negative for a non-negative
He fraction. -/
theorem ccr_pp_he_inspired_nonneg (S : Settings)
    (pressure pp_o2 w f_he f_n2 : ℚ) (hf : 0 ≤ f_he) :
    0 ≤ ccr_pp_he_inspired S pressure pp_o2 w f_he f_n2 := by
  unfold ccr_pp_he_inspired
  split_ifs with hs
  · exact div_nonneg (mul_nonneg (le_max_left _ _) hf) hs.le
  · exact le_refl 0

/-- The claimed CCR inspired N₂ pressure is non-negative for a non-negative
N₂ fraction. -/
theorem ccr_pp_n2_inspired_nonneg (S : Settings)
    (pressure pp_o2 w f_he f_n2 : ℚ) (hf : 0 ≤ f_n2) :
    0 ≤ ccr_pp_n2_inspired S pressure pp_o2 w f_he f_n2 := by
  unfold ccr_pp_n2_inspired
  split_ifs with hs
  · exact div_nonneg (mul_nonneg (le_max_left _ _) hf) hs.le
  · exact le_refl 0

/-- The compartment Haldane step never raises on non-negative inspired
pressures and positive time. -/
theorem const_depth_comp_ok (R : RealFns) (heI n2I t : ℚ)
    (hhe : 0 ≤ heI) (hn2 : 0 ≤ n2I) (ht : 0 < t) (c : Compartment) :
    (Compartment.const_depth R heI n2I t c).2 = none := by
  unfold Compartment.const_depth
  rw [if_neg]
  simp only [not_or, not_lt]
  exact ⟨ht.le, hhe, hn2⟩

/-- Normal form of `const_depth` in CCR mode (pp_o2 > 0) with non-negative
gas fractions: the inspired pressures are the (amended) claimed ones, the
OxTox update uses the (amended) effective pp_o2, no error is possible, and
the tissues are integrated exactly when seg_time > 0. -/
theorem const_depth_ccr_eq (R : RealFns) (S : Settings)
    (pressure seg_time f_he f_n2 pp_o2 : ℚ) (m : Model)
    (hpo : 0 < pp_o2) (hfhe : 0 ≤ f_he) (hfn2 : 0 ≤ f_n2) :
    Model.const_depth R S pressure seg_time f_he f_n2 pp_o2 m =
      (if 0 < seg_time then
        ({ m with
           tissues := fun i => (Compartment.const_depth R
             (ccr_pp_he_inspired S pressure pp_o2 m.pp_h2o f_he f_n2)
             (ccr_pp_n2_inspired S pressure pp_o2 m.pp_h2o f_he f_n2)
             seg_time (m.tissues i)).1
           ox_tox := m.ox_tox.add_o2 R seg_time
             (ccr_pp_o2_effective S pressure pp_o2 m.pp_h2o f_he f_n2) },
          none)
      else
        ({ m with
           ox_tox := m.ox_tox.add_o2 R seg_time
             (ccr_pp_o2_effective S pressure pp_o2 m.pp_h2o f_he f_n2) },
          none)) := by
  rw [Model.const_depth, if_pos (show pp_o2 > 0 from hpo)]
  by_cases hs : 0 < f_he + f_n2
  · by_cases hr : 0 < pressure + S.ambiant_pressure_surface - pp_o2 - m.pp_h2o
    · by_cases hT : 0 < seg_time
      · have hup := fun mm => updateTissues_ok
          (Compartment.const_depth R
            ((pressure + S.ambiant_pressure_surface - pp_o2 - m.pp_h2o) *
              f_he / (f_he + f_n2))
            ((pressure + S.ambiant_pressure_surface - pp_o2 - m.pp_h2o) *
              f_n2 / (f_he + f_n2))
            seg_time) mm
          (fun c => const_depth_comp_ok R _ _ _
            (div_nonneg (mul_nonneg hr.le hfhe) hs.le)
            (div_nonneg (mul_nonneg hr.le hfn2) hs.le) hT c)
        simp [hs, hr, hT, hup, ccr_pp_he_inspired, ccr_pp_n2_inspired,
          ccr_pp_o2_effective, ccr_p_inert, max_eq_right hr.le]
        try (split_ifs <;> rfl)
      · simp [hs, hr, hT, ccr_pp_he_inspired, ccr_pp_n2_inspired,
          ccr_pp_o2_effective, ccr_p_inert, max_eq_right hr.le]
        try (split_ifs <;> rfl)
    · have hr' : pressure + S.ambiant_pressure_surface - pp_o2 - m.pp_h2o
          ≤ 0 := not_lt.mp hr
      by_cases hT : 0 < seg_time
      · have hup := fun mm => updateTissues_ok
          (Compartment.const_depth R 0 0 seg_time) mm
          (fun c => const_depth_comp_ok R _ _ _ (le_refl 0) (le_refl 0) hT c)
        simp [hs, hr, hT, hup, ccr_pp_he_inspired, ccr_pp_n2_inspired,
          ccr_pp_o2_effective, ccr_p_inert, max_eq_left hr']
        try (split_ifs <;> rfl)
      · simp [hs, hr, hT, ccr_pp_he_inspired, ccr_pp_n2_inspired,
          ccr_pp_o2_effective, ccr_p_inert, max_eq_left hr']
        try (split_ifs <;> rfl)
  · by_cases hT : 0 < seg_time
    · have hup := fun mm => updateTissues_ok
        (Compartment.const_depth R 0 0 seg_time) mm
        (fun c => const_depth_comp_ok R _ _ _ (le_refl 0) (le_refl 0) hT c)
      simp [hs, hT, hup, ccr_pp_he_inspired, ccr_pp_n2_inspired,
        ccr_pp_o2_effective, ccr_p_inert]
      try (split_ifs <;> rfl)
    · simp [hs, hT, ccr_pp_he_inspired, ccr_pp_n2_inspired,
        ccr_pp_o2_effective, ccr_p_inert]
      try (split_ifs <;> rfl)

/-- The Haldane loop either succeeds or fails before touching any tissue:
its failure condition does not depend on the compartment, so an error means
no compartment was written. -/
theorem updateTissues_const_depth_frame (R : RealFns) (heI n2I t : ℚ)
    (mm : Model)
    (hne : (mm.updateTissues (Compartment.const_depth R heI n2I t)).2 ≠
      none) :
    (mm.updateTissues (Compartment.const_depth R heI n2I t)).1.tissues =
      mm.tissues := by
  by_cases hg : t < 0 ∨ heI < 0 ∨ n2I < 0
  · rw [updateTissues_err _ _ Err.modelState
      (fun c => by rw [Compartment.const_depth, if_pos hg])]
  · exact absurd
      (by rw [updateTissues_ok _ _
        (fun c => by rw [Compartment.const_depth, if_neg hg])]) hne

/-- The Schreiner loop likewise fails uniformly (on Δt ≤ 0) or not at all. -/
theorem updateTissues_asc_desc_frame (R : RealFns)
    (heI n2I rhe rn2 t : ℚ) (mm : Model)
    (hne : (mm.updateTissues
      (Compartment.asc_desc R heI n2I rhe rn2 t)).2 ≠ none) :
    (mm.updateTissues (Compartment.asc_desc R heI n2I rhe rn2 t)).1.tissues =
      mm.tissues := by
  by_cases hg : t ≤ 0
  · rw [updateTissues_err _ _ Err.modelState
      (fun c => by rw [Compartment.asc_desc, if_pos hg])]
  · exact absurd
      (by rw [updateTissues_ok _ _
        (fun c => by rw [Compartment.asc_desc, if_neg hg])]) hne

/-- An erroring `const_depth` leaves every compartment untouched. -/
theorem const_depth_err_frame (R : RealFns) (S : Settings)
    (pressure seg_time f_he f_n2 pp_o2 : ℚ) (m : Model)
    (hne : (Model.const_depth R S pressure seg_time f_he f_n2 pp_o2 m).2 ≠
      none) (i : Fin 16) :
    (Model.const_depth R S pressure seg_time f_he f_n2 pp_o2 m).1.tissues i =
      m.tissues i := by
  rw [Model.const_depth] at hne ⊢
  split_ifs at hne ⊢ <;>
    first
      | exact absurd rfl hne
      | exact congrFun (updateTissues_const_depth_frame R _ _ _ _ hne) i

/-- The tissue loop never touches the OxTox object. -/
theorem tissueStep_fold_ox (f : Compartment → Compartment × Option Err)
    (l : List (Fin 16)) :
    ∀ p : Model × Option Err,
      (l.foldl (tissueStep f) p).1.ox_tox = p.1.ox_tox := by
  induction l with
  | nil => intro p; rfl
  | cons x t ih =>
    intro p
    rw [List.foldl_cons, ih]
    rcases hp : p.2 with _ | e
    · rcases hr : (f (p.1.tissues x)).2 with _ | e
      · simp [tissueStep, hp, hr]
      · simp [tissueStep, hp, hr]
    · simp [tissueStep, hp]

/-- `updateTissues` leaves the OxTox object unchanged. -/
theorem updateTissues_ox (f : Compartment → Compartment × Option Err)
    (m : Model) : (m.updateTissues f).1.ox_tox = m.ox_tox :=
  tissueStep_fold_ox f (List.finRange 16) (m, none)

/-- An erroring `asc_desc` leaves every compartment's pressures and both
OxTox counters exactly as they were: the error is raised either before any
mutation (zero rate, or the zero-division when the CCR gas rates are
computed at zero segment time), or by the first compartment at zero segment
time, in which case the preceding `add_o2` call had a zero-duration (hence
zero) contribution. -/
theorem asc_desc_err_frame (R : RealFns) (S : Settings)
    (start finish rate f_he f_n2 pp_o2 : ℚ) (m : Model)
    (hne : (Model.asc_desc R S start finish rate f_he f_n2 pp_o2 m).2 ≠
      none) :
    (∀ i, (Model.asc_desc R S start finish rate f_he f_n2 pp_o2 m).1.tissues
      i = m.tissues i) ∧
    (Model.asc_desc R S start finish rate f_he f_n2 pp_o2 m).1.ox_tox.otu =
      m.ox_tox.otu ∧
    (Model.asc_desc R S start finish rate f_he f_n2 pp_o2 m).1.ox_tox.cns =
      m.ox_tox.cns := by
  simp only [Model.asc_desc, depth_to_pressure] at hne ⊢
  split_ifs at hne ⊢ <;>
    first
      | exact ⟨fun i => rfl, rfl, rfl⟩
      | (by_cases hz : |(finish - start) / (rate * barPerMetre)| = 0
         · refine ⟨fun i =>
             congrFun (updateTissues_asc_desc_frame R _ _ _ _ _ _ hne) i,
             ?_, ?_⟩ <;>
             (rw [updateTissues_ox]; simp [OxTox.add_o2, hz])
         · exfalso
           apply hne
           rw [updateTissues_ok]
           intro c
           rw [Compartment.asc_desc, if_neg]
           exact not_le.mpr (lt_of_le_of_ne (abs_nonneg _) (Ne.symm hz)))

/-- C1 counterexample: an open-circuit `const_depth` call with a negative
helium fraction makes the inspired He pressure negative, so the compartment
loop raises at the first compartment — yet the OxTox counters were already
updated with the positive segment time.  The operation returns an error
while the model state is NOT exactly as before: partial application is
observable after an error, refuting the claimed dichotomy. -/
theorem c1_counterexample :
    (Model.const_depth R1 S0 2 60 (-1) 1 0 mSmall).2 = some Err.modelState ∧
    (∀ i, (Model.const_depth R1 S0 2 60 (-1) 1 0 mSmall).1.tissues i =
      mSmall.tissues i) ∧
    (Model.const_depth R1 S0 2 60 (-1) 1 0 mSmall).1.ox_tox.otu ≠
      mSmall.ox_tox.otu := by
  have hneg : ((2 : ℚ) + S0.ambiant_pressure_surface - mSmall.pp_h2o) *
      (-1) < 0 := by
    norm_num [S0, mSmall]
  rw [Model.const_depth, if_neg (by norm_num : ¬((0 : ℚ) > 0))]
  simp only [if_neg (show ¬((2 : ℚ) = 0) by norm_num),
    if_pos (show (60 : ℚ) > 0 by norm_num)]
  rw [updateTissues_err _ _ Err.modelState (fun c => by
    rw [Compartment.const_depth, if_pos (Or.inr (Or.inl hneg))])]
  refine ⟨rfl, fun i => rfl, ?_⟩
  norm_num [OxTox.add_o2, R1, mSmall, S0]

/-- C1 (amended): segment operations are all-or-nothing on the
compartments — an error leaves every compartment's pressures untouched (the
per-compartment failure condition does not depend on the compartment, so
never is a strict prefix updated) — and an erroring `asc_desc` also leaves
both OxTox counters exactly as before.  For `const_depth`, however, the
OxTox update precedes the compartment loop, so an error can leave the OxTox
counters already updated (and a seg_time ≤ 0 call updates OxTox with no
error at all while skipping the compartments, see C10). -/
theorem c1_segment_atomicity_amended (R : RealFns) (S : Settings)
    (pressure seg_time start finish rate f_he f_n2 pp_o2 : ℚ) (m : Model) :
    ((Model.const_depth R S pressure seg_time f_he f_n2 pp_o2 m).2 ≠ none →
      ∀ i, (Model.const_depth R S pressure seg_time f_he f_n2 pp_o2
        m).1.tissues i = m.tissues i) ∧
    ((Model.asc_desc R S start finish rate f_he f_n2 pp_o2 m).2 ≠ none →
      (∀ i, (Model.asc_desc R S start finish rate f_he f_n2 pp_o2
        m).1.tissues i = m.tissues i) ∧
      (Model.asc_desc R S start finish rate f_he f_n2 pp_o2
        m).1.ox_tox.otu = m.ox_tox.otu ∧
      (Model.asc_desc R S start finish rate f_he f_n2 pp_o2
        m).1.ox_tox.cns = m.ox_tox.cns) :=
  ⟨fun hne i => const_depth_err_frame R S pressure seg_time f_he f_n2 pp_o2
      m hne i,
    fun hne => asc_desc_err_frame R S start finish rate f_he f_n2 pp_o2
      m hne⟩

/-- C1 witness: the amended theorem applied at concrete erroring calls
(a negative-fraction `const_depth` and a zero-rate `asc_desc`). -/
theorem c1_witness :
    (∀ i, (Model.const_depth R1 S0 2 60 (-1) 1 0 mSmall).1.tissues i =
      mSmall.tissues i) ∧
    (∀ i, (Model.asc_desc R1 S0 1 1 0 (-1) 1 0 mSmall).1.tissues i =
      mSmall.tissues i) ∧
    (Model.asc_desc R1 S0 1 1 0 (-1) 1 0 mSmall).1.ox_tox.otu =
      mSmall.ox_tox.otu ∧
    (Model.asc_desc R1 S0 1 1 0 (-1) 1 0 mSmall).1.ox_tox.cns =
      mSmall.ox_tox.cns := by
  have hcd : (Model.const_depth R1 S0 2 60 (-1) 1 0 mSmall).2 =
      some Err.modelState := by
    have hneg : ((2 : ℚ) + S0.ambiant_pressure_surface - mSmall.pp_h2o) *
        (-1) < 0 := by
      norm_num [S0, mSmall]
    rw [Model.const_depth, if_neg (by norm_num : ¬((0 : ℚ) > 0))]
    simp only [if_neg (show ¬((2 : ℚ) = 0) by norm_num),
      if_pos (show (60 : ℚ) > 0 by norm_num)]
    rw [updateTissues_err _ _ Err.modelState (fun c => by
      rw [Compartment.const_depth, if_pos (Or.inr (Or.inl hneg))])]
  have had : (Model.asc_desc R1 S0 1 1 0 (-1) 1 0 mSmall).2 ≠ none := by
    simp [Model.asc_desc, depth_to_pressure]
  have h := c1_segment_atomicity_amended R1 S0 2 60 1 1 0 (-1) 1 0 mSmall
  exact ⟨h.1 (by rw [hcd]; exact Option.noConfusion), (h.2 had).1,
    (h.2 had).2.1, (h.2 had).2.2⟩

/-- C2 (amended): in CCR mode with non-negative gas fractions, no error is
raised, the inspired inert pressures handed to every compartment are
p_inert·f_he/(f_he+f_n2) and p_inert·f_n2/(f_he+f_n2) with
p_inert = max(0, P_amb − pp_o2_set − pp_h2o) (and 0 when f_he + f_n2 = 0),
and the pp_o2 passed to OxTox is pp_o2_set exactly when pp_o2_set ≤ P_amb,
p_inert > 0 AND f_he + f_n2 > 0 — otherwise P_amb − pp_h2o.  (The claim's
version of the last condition omits the f_he + f_n2 > 0 conjunct.) -/
theorem c2_ccr_amended (R : RealFns) (S : Settings)
    (pressure seg_time f_he f_n2 pp_o2 : ℚ) (m : Model)
    (hpo : 0 < pp_o2) (hfhe : 0 ≤ f_he) (hfn2 : 0 ≤ f_n2) :
    (Model.const_depth R S pressure seg_time f_he f_n2 pp_o2 m).2 = none ∧
    (Model.const_depth R S pressure seg_time f_he f_n2 pp_o2 m).1.ox_tox =
      m.ox_tox.add_o2 R seg_time
        (ccr_pp_o2_effective S pressure pp_o2 m.pp_h2o f_he f_n2) ∧
    (0 < seg_time →
      ∀ i, (Model.const_depth R S pressure seg_time f_he f_n2 pp_o2
        m).1.tissues i =
        (Compartment.const_depth R
          (ccr_pp_he_inspired S pressure pp_o2 m.pp_h2o f_he f_n2)
          (ccr_pp_n2_inspired S pressure pp_o2 m.pp_h2o f_he f_n2)
          seg_time (m.tissues i)).1) := by
  rw [const_depth_ccr_eq R S pressure seg_time f_he f_n2 pp_o2 m hpo hfhe
    hfn2]
  split_ifs with hT
  · exact ⟨rfl, rfl, fun _ i => rfl⟩
  · exact ⟨rfl, rfl, fun h => absurd h hT⟩

/-- C2 witness: the amended theorem at a concrete trimix CCR segment. -/
theorem c2_witness :
    (Model.const_depth R0 S0 1 60 (3/10) (1/2) (13/10) mSmall).2 = none ∧
    (Model.const_depth R0 S0 1 60 (3/10) (1/2) (13/10) mSmall).1.ox_tox =
      mSmall.ox_tox.add_o2 R0 60
        (ccr_pp_o2_effective S0 1 (13/10) mSmall.pp_h2o (3/10) (1/2)) ∧
    ((0 : ℚ) < 60 →
      ∀ i, (Model.const_depth R0 S0 1 60 (3/10) (1/2) (13/10)
        mSmall).1.tissues i =
        (Compartment.const_depth R0
          (ccr_pp_he_inspired S0 1 (13/10) mSmall.pp_h2o (3/10) (1/2))
          (ccr_pp_n2_inspired S0 1 (13/10) mSmall.pp_h2o (3/10) (1/2))
          60 (mSmall.tissues i)).1) :=
  c2_ccr_amended R0 S0 1 60 (3/10) (1/2) (13/10) mSmall (by norm_num)
    (by norm_num) (by norm_num)

/-- C2 counterexample: a pure-oxygen CCR segment (f_he = f_n2 = 0) at depth,
setpoint 1.3 bar: the claim's conditions hold (pp_o2_set ≤ P_amb and
p_inert = max(0, P_amb − pp_o2_set − pp_h2o) > 0), so the claim says OxTox
receives pp_o2_set — but the code forces p_inert to 0 on a pure-O₂ mix and
passes P_amb − pp_h2o instead. -/
theorem c2_counterexample :
    ((13/10 : ℚ) ≤ 1 + S0.ambiant_pressure_surface) ∧
    (0 < ccr_p_inert S0 1 (13/10) mSmall.pp_h2o) ∧
    (Model.const_depth R1 S0 1 60 0 0 (13/10) mSmall).1.ox_tox ≠
      mSmall.ox_tox.add_o2 R1 60 (13/10) := by
  refine ⟨by norm_num [S0], by norm_num [ccr_p_inert, S0, mSmall], ?_⟩
  have h := const_depth_ccr_eq R1 S0 1 60 0 0 (13/10) mSmall (by norm_num)
    (le_refl 0) (le_refl 0)
  rw [if_pos (by norm_num : (0:ℚ) < 60)] at h
  rw [h]
  simp only [OxTox.add_o2, ccr_pp_o2_effective, ccr_p_inert]
  norm_num [R1, mSmall, S0]

/-- The running maximum of the control-compartment scan. -/
theorem ctrl_fold_snd (g : Fin 16 → ℚ) (l : List (Fin 16)) :
    ∀ (b : ℕ) (x : ℚ),
      (l.foldl (fun acc i => if g i > acc.2 then (i.val, g i) else acc)
        (b, x)).2 = l.foldl (fun a i => max a (g i)) x := by
  induction l with
  | nil => intro b x; rfl
  | cons hd t ih =>
    intro b x
    simp only [List.foldl_cons]
    rcases lt_or_ge x (g hd) with h | h
    · rw [if_pos h, max_eq_right h.le, ih]
    · rw [if_neg (not_lt_of_ge h), max_eq_left h, ih]

/-- The scan does not move when no value exceeds the accumulator. -/
theorem ctrl_fold_fixed (g : Fin 16 → ℚ) (l : List (Fin 16)) :
    ∀ (b : ℕ) (x : ℚ), (∀ i ∈ l, g i ≤ x) →
      l.foldl (fun acc i => if g i > acc.2 then (i.val, g i) else acc)
        (b, x) = (b, x) := by
  induction l with
  | nil => intro b x _; rfl
  | cons hd t ih =>
    intro b x hle
    simp only [List.foldl_cons]
    rw [if_neg (not_lt_of_ge (hle hd (List.mem_cons_self hd t)))]
    exact ih b x (fun i hi => hle i (List.mem_cons_of_mem hd hi))

/-- Every scanned value is at most the running maximum. -/
theorem le_foldl_max (g : Fin 16 → ℚ) (l : List (Fin 16)) :
    ∀ (x : ℚ), (x ≤ l.foldl (fun a i => max a (g i)) x) ∧
      (∀ i ∈ l, g i ≤ l.foldl (fun a i => max a (g i)) x) := by
  induction l with
  | nil => intro x; exact ⟨le_refl x, fun i hi => absurd hi (List.not_mem_nil i)⟩
  | cons hd t ih =>
    intro x
    simp only [List.foldl_cons]
    refine ⟨le_trans (le_max_left x (g hd)) (ih (max x (g hd))).1,
      fun i hi => ?_⟩
    rcases List.mem_cons.mp hi with h | h
    · rw [h]
      exact le_trans (le_max_right x (g hd)) (ih (max x (g hd))).1
    · exact (ih (max x (g hd))).2 i h

/-- When the scan's final maximum strictly exceeds its start, the recorded
index is the first list element attaining that maximum, and every element
before it is strictly below it. -/
theorem ctrl_fold_first (g : Fin 16 → ℚ) (l : List (Fin 16)) :
    ∀ (b : ℕ) (x : ℚ),
      x < (l.foldl (fun acc i => if g i > acc.2 then (i.val, g i) else acc)
        (b, x)).2 →
      ∃ l₁ j l₂, l = l₁ ++ j :: l₂ ∧
        (l.foldl (fun acc i => if g i > acc.2 then (i.val, g i) else acc)
          (b, x)).1 = j.val ∧
        g j = (l.foldl (fun acc i => if g i > acc.2 then (i.val, g i) else
          acc) (b, x)).2 ∧
        ∀ k ∈ l₁, g k <
          (l.foldl (fun acc i => if g i > acc.2 then (i.val, g i) else acc)
            (b, x)).2 := by
  induction l with
  | nil =>
    intro b x hx
    exact absurd hx (lt_irrefl x)
  | cons hd t ih =>
    intro b x hx
    simp only [List.foldl_cons] at hx ⊢
    rcases lt_or_ge x (g hd) with h | h
    · rw [if_pos h] at hx ⊢
      rcases lt_or_ge (g hd)
          ((t.foldl (fun acc i => if g i > acc.2 then (i.val, g i) else acc)
            (hd.val, g hd)).2) with h2 | h2
      · obtain ⟨l₁, j, l₂, hl, hfst, hval, hpre⟩ := ih hd.val (g hd) h2
        refine ⟨hd :: l₁, j, l₂, by rw [hl, List.cons_append], hfst, hval,
          ?_⟩
        intro k hk
        rcases List.mem_cons.mp hk with hk | hk
        · subst hk
          exact h2
        · exact hpre k hk
      · have hfix : (t.foldl (fun acc i => if g i > acc.2 then (i.val, g i)
            else acc) (hd.val, g hd)) = (hd.val, g hd) := by
          apply ctrl_fold_fixed
          intro i hi
          have hm := (le_foldl_max g t (g hd)).2 i hi
          rw [← ctrl_fold_snd g t hd.val (g hd)] at hm
          exact le_trans hm h2
        refine ⟨[], hd, t, rfl, ?_, ?_, ?_⟩
        · rw [hfix]
        · rw [hfix]
        · intro k hk
          exact absurd hk (List.not_mem_nil k)
    · rw [if_neg (not_lt_of_ge h)] at hx ⊢
      obtain ⟨l₁, j, l₂, hl, hfst, hval, hpre⟩ := ih b x hx
      refine ⟨hd :: l₁, j, l₂, by rw [hl, List.cons_append], hfst, hval,
        ?_⟩
      intro k hk
      rcases List.mem_cons.mp hk with hk | hk
      · subst hk
        exact lt_of_le_of_lt h hx
      · exact hpre k hk

/-- C7 (amended): `control_compartment` returns the 1-based index of the
lowest-index compartment attaining the greatest `max_amb(current_gf)` among
the compartments whose max_amb exceeds surface pressure (ties resolved to
the lowest index); when no compartment's max_amb exceeds surface pressure it
returns 1 regardless of where the maximum lies. -/
theorem c7_control_amended (S : Settings) (m : Model) :
    ((∀ i : Fin 16, (m.tissues i).get_max_amb m.gradient.gf ≤
        S.ambiant_pressure_surface) →
      Model.control_compartment S m = 1) ∧
    ((∃ i : Fin 16, S.ambiant_pressure_surface <
        (m.tissues i).get_max_amb m.gradient.gf) →
      ∃ j : Fin 16, Model.control_compartment S m = j.val + 1 ∧
        S.ambiant_pressure_surface <
          (m.tissues j).get_max_amb m.gradient.gf ∧
        (∀ i : Fin 16, (m.tissues i).get_max_amb m.gradient.gf ≤
          (m.tissues j).get_max_amb m.gradient.gf) ∧
        (∀ i : Fin 16, i < j →
          (m.tissues i).get_max_amb m.gradient.gf <
            (m.tissues j).get_max_amb m.gradient.gf)) := by
  have hdef : Model.control_compartment S m =
      ((List.finRange 16).foldl
        (fun acc i => if (m.tissues i).get_max_amb m.gradient.gf -
            S.ambiant_pressure_surface > acc.2 then
          (i.val, (m.tissues i).get_max_amb m.gradient.gf -
            S.ambiant_pressure_surface) else acc)
        ((0 : ℕ), (0 : ℚ))).1 + 1 := rfl
  constructor
  · intro h
    rw [hdef, ctrl_fold_fixed _ _ 0 0
      (fun i _ => sub_nonpos.mpr (h i))]
  · rintro ⟨i₀, hi₀⟩
    have hg : 0 < (m.tissues i₀).get_max_amb m.gradient.gf -
        S.ambiant_pressure_surface := sub_pos.mpr hi₀
    have hsnd := ctrl_fold_snd
      (fun i => (m.tissues i).get_max_amb m.gradient.gf -
        S.ambiant_pressure_surface) (List.finRange 16) 0 0
    have hmem := (le_foldl_max
      (fun i => (m.tissues i).get_max_amb m.gradient.gf -
        S.ambiant_pressure_surface) (List.finRange 16) 0).2 i₀
      (List.mem_finRange i₀)
    have hx : (0 : ℚ) <
        ((List.finRange 16).foldl
          (fun acc i => if (m.tissues i).get_max_amb m.gradient.gf -
              S.ambiant_pressure_surface > acc.2 then
            (i.val, (m.tissues i).get_max_amb m.gradient.gf -
              S.ambiant_pressure_surface) else acc)
          ((0 : ℕ), (0 : ℚ))).2 := by
      rw [hsnd]
      exact lt_of_lt_of_le hg hmem
    obtain ⟨l₁, j, l₂, hl, hfst, hval, hpre⟩ := ctrl_fold_first
      (fun i => (m.tissues i).get_max_amb m.gradient.gf -
        S.ambiant_pressure_surface) (List.finRange 16) 0 0 hx
    refine ⟨j, by rw [hdef, hfst], sub_pos.mp (hval ▸ hx), fun i => ?_,
      fun i hij => ?_⟩
    · have hle := (le_foldl_max
        (fun i => (m.tissues i).get_max_amb m.gradient.gf -
          S.ambiant_pressure_surface) (List.finRange 16) 0).2 i
        (List.mem_finRange i)
      rw [← hsnd, ← hval] at hle
      exact (sub_le_sub_iff_right _).mp hle
    · have hpw := List.pairwise_lt_finRange 16
      rw [hl] at hpw
      obtain ⟨hpw1, hpw2, hcross⟩ := List.pairwise_append.mp hpw
      have hmem' : i ∈ l₁ ++ j :: l₂ := by
        rw [← hl]; exact List.mem_finRange i
      rcases List.mem_append.mp hmem' with hil | hir
      · have := hpre i hil
        rw [← hval] at this
        exact (sub_lt_sub_iff_right _).mp this
      · rcases List.mem_cons.mp hir with hij' | hil2
        · exact absurd (hij' ▸ hij) (lt_irrefl j)
        · have : j < i := by
            rcases List.pairwise_cons.mp hpw2 with ⟨hjl2, _⟩
            exact hjl2 i hil2
          exact absurd (lt_trans hij this) (lt_irrefl i)

/-- C7 counterexample: in `mC7` the unique compartment with the greatest
`max_amb(current_gf)` is compartment index 1 (1-based: 2), but every
compartment is below surface pressure, so the scan never moves off its
initial accumulator and `control_compartment` returns 1, not 2. -/
theorem c7_counterexample :
    Model.control_compartment S0 mC7 = 1 ∧
    (∀ i : Fin 16, i ≠ 1 →
      (mC7.tissues i).get_max_amb mC7.gradient.gf <
        (mC7.tissues 1).get_max_amb mC7.gradient.gf) := by
  constructor
  · have e : Model.control_compartment S0 mC7 =
        ((List.finRange 16).foldl
          (fun acc i => if (mC7.tissues i).get_max_amb mC7.gradient.gf -
              S0.ambiant_pressure_surface > acc.2 then
            (i.val, (mC7.tissues i).get_max_amb mC7.gradient.gf -
              S0.ambiant_pressure_surface) else acc)
          ((0 : ℕ), (0 : ℚ))).1 + 1 := rfl
    rw [e, ctrl_fold_fixed _ _ 0 0 ?_]
    intro i _
    show (if i = 1 then cMid else cSmall).get_max_amb (0.8 : ℚ) -
      S0.ambiant_pressure_surface ≤ 0
    by_cases h : i = 1
    · rw [if_pos h, Compartment.get_max_amb]
      norm_num [cMid, S0]
    · rw [if_neg h, Compartment.get_max_amb]
      norm_num [cSmall, S0]
  · intro i hi
    show (if i = 1 then cMid else cSmall).get_max_amb (0.8 : ℚ) <
      (if (1 : Fin 16) = 1 then cMid else cSmall).get_max_amb (0.8 : ℚ)
    rw [if_neg hi, if_pos rfl, Compartment.get_max_amb,
      Compartment.get_max_amb]
    norm_num [cSmall, cMid]

/-- C7 witness: the amended theorem at two concrete states — `mC7`, all
compartments surface-clear (result 1), and `mBig`, whose compartment 2 is
the unique loaded one above surface pressure. -/
theorem c7_witness :
    Model.control_compartment S0 mC7 = 1 ∧
    (∃ j : Fin 16, Model.control_compartment S0 mBig = j.val + 1 ∧
      S0.ambiant_pressure_surface <
        (mBig.tissues j).get_max_amb mBig.gradient.gf ∧
      (∀ i : Fin 16, (mBig.tissues i).get_max_amb mBig.gradient.gf ≤
        (mBig.tissues j).get_max_amb mBig.gradient.gf) ∧
      (∀ i : Fin 16, i < j →
        (mBig.tissues i).get_max_amb mBig.gradient.gf <
          (mBig.tissues j).get_max_amb mBig.gradient.gf)) := by
  constructor
  · refine (c7_control_amended S0 mC7).1 ?_
    intro i
    show (if i = 1 then cMid else cSmall).get_max_amb (0.8 : ℚ) ≤
      S0.ambiant_pressure_surface
    by_cases h : i = 1
    · rw [if_pos h, Compartment.get_max_amb]
      norm_num [cMid, S0]
    · rw [if_neg h, Compartment.get_max_amb]
      norm_num [cSmall, S0]
  · refine (c7_control_amended S0 mBig).2 ⟨2, ?_⟩
    show S0.ambiant_pressure_surface <
      (if (2 : Fin 16) = 2 then cBig else cSmall).get_max_amb (0.8 : ℚ)
    rw [if_pos rfl, Compartment.get_max_amb]
    norm_num [cBig, S0]

/-- Reloading a coefficient row overwrites all six coefficients and keeps
the pressures, so zeroed decay constants are immaterial. -/
theorem applyRow_zeroK (R : RealFns) (r : TimeConstRow) (c : Compartment) :
    applyRow R r { c with k_he := 0, k_n2 := 0 } = applyRow R r c := rfl

/-- C8: (i) for every model whose compartments carry the configured table's
coefficients (as every model built by the program does) and whose pressures
are intact (pp_n2 > 0, pp_he ≥ 0), zeroing all k coefficients and then
validating succeeds and restores the model exactly — in particular each
compartment's original k_he and k_n2; (ii) validation fails with a
ModelValidation error, leaving the model untouched, whenever some
compartment has pp_n2 ≤ 0 or pp_he < 0. -/
theorem c8_validate_roundtrip (R : RealFns) (S : Settings) (m : Model) :
    ((∀ i, m.tissues i =
        applyRow R (zhl16Row S.deco_model S.buhlmann_values i)
          (m.tissues i)) →
      (∀ i, 0 < (m.tissues i).pp_n2 ∧ 0 ≤ (m.tissues i).pp_he) →
      Model.validate_model R S (zeroK m) = (m, none)) ∧
    ((∃ i, (m.tissues i).pp_n2 ≤ 0 ∨ (m.tissues i).pp_he < 0) →
      Model.validate_model R S m = (m, some Err.validation)) := by
  constructor
  · intro htab hpp
    rw [Model.validate_model]
    have h1 : ((List.finRange 16).any (fun i =>
        decide (((zeroK m).tissues i).pp_n2 ≤ 0) ||
        decide (((zeroK m).tissues i).pp_he < 0))) = false := by
      rw [List.any_eq_false]
      intro i _
      simp only [Bool.or_eq_true, decide_eq_true_eq, not_or, not_le,
        not_lt]
      exact hpp i
    rw [if_neg (by rw [h1]; exact Bool.false_ne_true)]
    have h2 : ((List.finRange 16).any (fun i =>
        decide (((zeroK m).tissues i).k_he = 0) ||
        decide (((zeroK m).tissues i).k_n2 = 0) ||
        decide (((zeroK m).tissues i).a_he = 0) ||
        decide (((zeroK m).tissues i).b_he = 0) ||
        decide (((zeroK m).tissues i).a_n2 = 0) ||
        decide (((zeroK m).tissues i).b_n2 = 0))) = true := by
      rw [List.any_eq_true]
      exact ⟨0, List.mem_finRange 0, by simp [zeroK]⟩
    rw [if_pos h2]
    obtain ⟨tis, ox, gr, ph, un, md⟩ := m
    simp only [Model.set_time_constants, zeroK, Prod.mk.injEq,
      Model.mk.injEq, and_true, true_and]
    funext i
    exact (applyRow_zeroK R _ _).trans (htab i).symm
  · rintro ⟨i, hbad⟩
    rw [Model.validate_model, if_pos]
    rw [List.any_eq_true]
    refine ⟨i, List.mem_finRange i, ?_⟩
    rcases hbad with h | h <;> simp [h]

/-- C8 witness: the round trip on a concrete table-consistent model, and
the failure on a concrete corrupted one. -/
theorem c8_witness :
    Model.validate_model R0 S0 (zeroK mC8) = (mC8, none) ∧
    Model.validate_model R0 S0 mC8bad = (mC8bad, some Err.validation) := by
  constructor
  · refine (c8_validate_roundtrip R0 S0 mC8).1 (fun i => rfl)
      (fun i => ⟨?_, ?_⟩)
    · show (0 : ℚ) < 1
      norm_num
    · show (0 : ℚ) ≤ 0
      exact le_refl 0
  · exact (c8_validate_roundtrip R0 S0 mC8bad).2 ⟨0, Or.inl (le_refl 0)⟩

/-- Writing through a batch of addresses leaves any other address
unchanged. -/
theorem foldl_set_frame (addr : Fin 16 → ℕ) (v : Fin 16 → Compartment)
    (a : ℕ) (l : List (Fin 16)) (hne : ∀ i, a ≠ addr i) :
    ∀ cs : List Compartment,
      (l.foldl (fun ll i => ll.set (addr i) (v i)) cs)[a]? = cs[a]? := by
  induction l with
  | nil => intro cs; rfl
  | cons x t ih =>
    intro cs
    rw [List.foldl_cons, ih]
    exact List.getElem?_set_ne (fun hh => hne x hh.symm)

/-- A mutation step through `c` does not change anything `o` observes, as
long as `o` and `c` share no address. -/
theorem applyMStep_frame (c o : ModelRef) (h : Heap) (st : MStep)
    (hT : ∀ i j, o.tissues_addr i ≠ c.tissues_addr j)
    (hO : o.ox_addr ≠ c.ox_addr) (hG : o.grad_addr ≠ c.grad_addr) :
    readModel (applyMStep c h st) o = readModel h o := by
  unfold readModel applyMStep
  simp only [Prod.mk.injEq, and_true]
  refine ⟨funext fun i => ?_, ?_, ?_⟩
  · exact foldl_set_frame c.tissues_addr (st.newComps h) (o.tissues_addr i)
      (List.finRange 16) (fun j => hT i j) h.comps
  · exact List.getElem?_set_ne (fun hh => hO hh.symm)
  · exact List.getElem?_set_ne (fun hh => hG hh.symm)

/-- C9: clone independence.  `__deepcopy__` returns a model whose every
mutable object is a freshly allocated cell beyond the original heap, so any
sequence of mutation steps applied through the clone leaves everything the
original model observes — each compartment's pressures and coefficients,
the OxTox counters, the Gradient state, pp_h2o, units and metadata —
exactly unchanged. -/
theorem c9_clone_independence (R : RealFns) (S : Settings) (h : Heap)
    (o : ModelRef) (steps : List MStep) (hwf : h.wf o) :
    readModel (applyMSteps (Model.deepcopy R S h o).2
      (Model.deepcopy R S h o).1 steps) o = readModel h o := by
  obtain ⟨hwT, hwO, hwG⟩ := hwf
  have hT : ∀ i j, o.tissues_addr i ≠
      ((Model.deepcopy R S h o).2).tissues_addr j := by
    intro i j
    show o.tissues_addr i ≠ h.comps.length + 16 + j.val
    have := hwT i
    omega
  have hO : o.ox_addr ≠ ((Model.deepcopy R S h o).2).ox_addr := by
    show o.ox_addr ≠ h.oxs.length + 1
    omega
  have hG : o.grad_addr ≠ ((Model.deepcopy R S h o).2).grad_addr := by
    show o.grad_addr ≠ h.grads.length + 1
    omega
  have base : readModel (Model.deepcopy R S h o).1 o = readModel h o := by
    unfold readModel Model.deepcopy
    refine congrArg₂ Prod.mk (funext fun i => ?_) (congrArg₂ Prod.mk ?_
      (congrArg₂ Prod.mk ?_ rfl))
    · rw [List.getElem?_append_left, List.getElem?_append_left (hwT i)]
      rw [List.length_append, List.length_map]
      exact Nat.lt_of_lt_of_le (hwT i) (Nat.le_add_right _ _)
    · exact List.getElem?_append_left hwO
    · exact List.getElem?_append_left hwG
  have main : ∀ (st : List MStep) (h' : Heap),
      readModel h' o = readModel h o →
      readModel (applyMSteps (Model.deepcopy R S h o).2 h' st) o =
        readModel h o := by
    intro st
    induction st with
    | nil => intro h' hh; exact hh
    | cons s t ih =>
      intro h' hh
      exact ih _ ((applyMStep_frame _ o h' s hT hO hG).trans hh)
  exact main steps _ base

/-- C9 witness: clone independence at a concrete heap, model and mutation
step. -/
theorem c9_witness :
    readModel (applyMSteps (Model.deepcopy R0 S0 h0 r0).2
      (Model.deepcopy R0 S0 h0 r0).1 [step0]) r0 = readModel h0 r0 :=
  c9_clone_independence R0 S0 h0 r0 [step0]
    ⟨fun i => by simpa [h0, r0] using i.isLt,
      by norm_num [h0, r0], by norm_num [h0, r0]⟩
